import Mathlib

/-!
Shallow embedding of `src/verify_build.py`, a sequential build-then-test
runner script.

The script changes into a fixed working directory, invokes a build command
as a subprocess (capturing stdout/stderr in full as text), prints a banner
and the captured output, and on build failure prints a failure indicator
and exits 1; on success it prints a success indicator, invokes the test
command (with `--no-build` appended) the same way, and exits 1 on test
failure or 0 after printing a success indicator and a final summary line.

The external environment is modelled by a `World`: whether the working
directory change succeeds, and a function giving each shell command string
the `CommandResult` (return code, captured stdout text, captured stderr
text) its subprocess would produce.  Every `print` call of the script is
reified as one `Event`; the commands passed to `subprocess.run` are
recorded in order in `spawned`.
-/

/-- Result of `subprocess.run(cmd, shell=True, capture_output=True, text=True)`:
the integer return code and the fully captured stdout and stderr texts. -/
structure CommandResult where
  returncode : Int
  stdout : String
  stderr : String
deriving DecidableEq, Repr

/-- One `print` call of the script.  `msg` is a runner-authored line printed
to stdout (banner lines, indicators, summary); `childOut` is the
unconditional `print(result.stdout)`; `childErr` is the conditional
`print(result.stderr, file=sys.stderr)` directed to the error stream. -/
inductive Event where
  | msg (s : String)
  | childOut (s : String)
  | childErr (s : String)
deriving DecidableEq, Repr

/-- The separator line `'='*60` of the banner. -/
def sep60 : String := String.mk (List.replicate 60 (Char.ofNat 61))

/-- `run_command(cmd, description)` of the script: print the banner
(separator, description, separator), run the command capturing output,
print the captured stdout unconditionally, print the captured stderr to
the error stream only if non-empty, and return `returncode == 0`.
The reified step records the print events and the spawned command. -/
structure CmdStep where
  events : List Event
  spawned : List String
  success : Bool
deriving DecidableEq, Repr

def run_command (exec : String → CommandResult) (cmd description : String) :
    CmdStep :=
  let result := exec cmd
  { events := [Event.msg ("\n" ++ sep60), Event.msg description,
               Event.msg sep60, Event.childOut result.stdout] ++
              (if result.stderr ≠ "" then [Event.childErr result.stderr]
               else []),
    spawned := [cmd],
    success := result.returncode == 0 }

/-- The build command string of the script. -/
def build_cmd : String := "dotnet build DistributedLeasing.sln"

/-- The flag appended to the test command so it skips its own build step. -/
def noBuildFlag : String := " --no-build"

/-- The test command string of the script: the `dotnet test` invocation
with the no-build flag appended. -/
def test_cmd : String := "dotnet test DistributedLeasing.sln --no-build"

/-- The build-failure indicator line. -/
def buildFailedMsg : String := "\n❌ Build FAILED"

/-- The build-success indicator line. -/
def buildSuccessMsg : String := "\n✅ Build SUCCESS"

/-- The test-failure indicator line. -/
def testsFailedMsg : String := "\n❌ Tests FAILED"

/-- The test-success indicator line. -/
def testsPassedMsg : String := "\n✅ Tests PASSED"

/-- The final celebratory summary line. -/
def finalSummaryMsg : String := "\n🎉 All tasks completed successfully!"

/-- The external environment of one run of the script: whether
`os.chdir("/Users/pjawade/repos/DistributedLeasing")` succeeds, and the
subprocess result each shell command string would produce. -/
structure World where
  chdirOk : Bool
  exec : String → CommandResult

/-- How the runner process terminates: an uncaught `EnvironmentError`
raised by `os.chdir`, or a process exit with the given code
(`sys.exit(1)`, or code 0 on normal completion of the script). -/
inductive Outcome where
  | envError
  | exited (code : Nat)
deriving DecidableEq, Repr

/-- The observable result of one run of the script. -/
structure RunResult where
  outcome : Outcome
  events : List Event
  spawned : List String
deriving DecidableEq, Repr

/-- The `__main__` block of `verify_build.py`: chdir (fatal on failure),
run the build command; if it failed, print the failure indicator and exit
1; otherwise print the success indicator, run the test command; if it
failed, print the failure indicator and exit 1; otherwise print the
success indicator and the final summary and exit 0. -/
def run (w : World) : RunResult :=
  if w.chdirOk then
    let bld := run_command w.exec build_cmd "Building Solution"
    if !bld.success then
      { outcome := Outcome.exited 1,
        events := bld.events ++ [Event.msg buildFailedMsg],
        spawned := bld.spawned }
    else
      let tst := run_command w.exec test_cmd "Running Tests"
      if !tst.success then
        { outcome := Outcome.exited 1,
          events := bld.events ++ [Event.msg buildSuccessMsg] ++
                    tst.events ++ [Event.msg testsFailedMsg],
          spawned := bld.spawned ++ tst.spawned }
      else
        { outcome := Outcome.exited 0,
          events := bld.events ++ [Event.msg buildSuccessMsg] ++
                    tst.events ++
                    [Event.msg testsPassedMsg, Event.msg finalSummaryMsg],
          spawned := bld.spawned ++ tst.spawned }
  else
    { outcome := Outcome.envError, events := [], spawned := [] }

/-- An event is a success indicator when it is one of the two
runner-printed ✅ lines. -/
def isSuccessIndicator (e : Event) : Bool :=
  e == Event.msg buildSuccessMsg || e == Event.msg testsPassedMsg

/-- An event is a failure indicator when it is one of the two
runner-printed ❌ lines. -/
def isFailureIndicator (e : Event) : Bool :=
  e == Event.msg buildFailedMsg || e == Event.msg testsFailedMsg

/-- An event is the final celebratory summary line. -/
def isFinalSummary (e : Event) : Bool :=
  e == Event.msg finalSummaryMsg

/-- An event is an indicator or the final summary line. -/
def isMarker (e : Event) : Bool :=
  isSuccessIndicator e || isFailureIndicator e || isFinalSummary e

/-- An event is directed to the runner's error stream. -/
def isErrStream (e : Event) : Bool :=
  match e with
  | Event.childErr _ => true
  | _ => false

/-! Helper lemmas: the classifier predicates on each event shape. -/

@[simp] theorem isSuccessIndicator_childOut (s : String) :
    isSuccessIndicator (Event.childOut s) = false := rfl

@[simp] theorem isSuccessIndicator_childErr (s : String) :
    isSuccessIndicator (Event.childErr s) = false := rfl

@[simp] theorem isFailureIndicator_childOut (s : String) :
    isFailureIndicator (Event.childOut s) = false := rfl

@[simp] theorem isFailureIndicator_childErr (s : String) :
    isFailureIndicator (Event.childErr s) = false := rfl

@[simp] theorem isFinalSummary_childOut (s : String) :
    isFinalSummary (Event.childOut s) = false := rfl

@[simp] theorem isFinalSummary_childErr (s : String) :
    isFinalSummary (Event.childErr s) = false := rfl

@[simp] theorem isMarker_childOut (s : String) :
    isMarker (Event.childOut s) = false := rfl

@[simp] theorem isMarker_childErr (s : String) :
    isMarker (Event.childErr s) = false := rfl

@[simp] theorem isErrStream_msg (s : String) :
    isErrStream (Event.msg s) = false := rfl

@[simp] theorem isErrStream_childOut (s : String) :
    isErrStream (Event.childOut s) = false := rfl

@[simp] theorem isErrStream_childErr (s : String) :
    isErrStream (Event.childErr s) = true := rfl

@[simp] theorem isMarker_banner1 : isMarker (Event.msg ("\n" ++ sep60)) = false := by
  decide

@[simp] theorem isMarker_banner2 : isMarker (Event.msg sep60) = false := by
  decide

@[simp] theorem isMarker_building : isMarker (Event.msg "Building Solution") = false := by
  decide

@[simp] theorem isMarker_running : isMarker (Event.msg "Running Tests") = false := by
  decide

/-! Concrete worlds used by the witnesses. -/

/-- A subprocess result reporting success with some output. -/
def okResult : CommandResult :=
  { returncode := 0, stdout := "compiling...", stderr := "" }

/-- A subprocess result reporting failure with output on stderr. -/
def failResult : CommandResult :=
  { returncode := 1, stdout := "", stderr := "error: syntax" }

/-- A world where the directory change succeeds and every command succeeds. -/
def wAllOk : World := { chdirOk := true, exec := fun _ => okResult }

/-- A world where the directory change succeeds and every command fails. -/
def wBuildFails : World := { chdirOk := true, exec := fun _ => failResult }

/-- A world where the build succeeds but every other command fails. -/
def wTestFails : World :=
  { chdirOk := true, exec := fun c => if c = build_cmd then okResult else failResult }

/-- A world where the directory change fails. -/
def wBadDir : World := { chdirOk := false, exec := fun _ => okResult }

/-- A world with the same exit statuses as `wAllOk` but different output text. -/
def wAllOkNoisy : World :=
  { chdirOk := true,
    exec := fun _ => { returncode := 0, stdout := "other text", stderr := "warning" } }

/-- A world agreeing with `wAllOk` on the build and test commands but
failing an unrelated command. -/
def wAllOkElsewhere : World :=
  { chdirOk := true, exec := fun c => if c = "some other command" then failResult else okResult }

/-! Classifier values on the concrete runner-printed lines. -/

@[simp] theorem isMarker_buildSuccess :
    isMarker (Event.msg buildSuccessMsg) = true := by decide

@[simp] theorem isMarker_testsPassed :
    isMarker (Event.msg testsPassedMsg) = true := by decide

@[simp] theorem isMarker_finalSummary :
    isMarker (Event.msg finalSummaryMsg) = true := by decide

@[simp] theorem isMarker_buildFailed :
    isMarker (Event.msg buildFailedMsg) = true := by decide

@[simp] theorem isMarker_testsFailed :
    isMarker (Event.msg testsFailedMsg) = true := by decide

@[simp] theorem isFailureIndicator_buildSuccess :
    isFailureIndicator (Event.msg buildSuccessMsg) = false := by decide

@[simp] theorem isFailureIndicator_testsPassed :
    isFailureIndicator (Event.msg testsPassedMsg) = false := by decide

@[simp] theorem isFailureIndicator_finalSummary :
    isFailureIndicator (Event.msg finalSummaryMsg) = false := by decide

@[simp] theorem isFailureIndicator_banner1 :
    isFailureIndicator (Event.msg ("\n" ++ sep60)) = false := by decide

@[simp] theorem isFailureIndicator_banner2 :
    isFailureIndicator (Event.msg sep60) = false := by decide

@[simp] theorem isFailureIndicator_building :
    isFailureIndicator (Event.msg "Building Solution") = false := by decide

@[simp] theorem isFailureIndicator_running :
    isFailureIndicator (Event.msg "Running Tests") = false := by decide

@[simp] theorem isFailureIndicator_buildFailed :
    isFailureIndicator (Event.msg buildFailedMsg) = true := by decide

@[simp] theorem isFailureIndicator_testsFailed :
    isFailureIndicator (Event.msg testsFailedMsg) = true := by decide

@[simp] theorem isSuccessIndicator_buildSuccess :
    isSuccessIndicator (Event.msg buildSuccessMsg) = true := by decide

@[simp] theorem isSuccessIndicator_testsPassed :
    isSuccessIndicator (Event.msg testsPassedMsg) = true := by decide

@[simp] theorem isSuccessIndicator_buildFailed :
    isSuccessIndicator (Event.msg buildFailedMsg) = false := by decide

@[simp] theorem isSuccessIndicator_testsFailed :
    isSuccessIndicator (Event.msg testsFailedMsg) = false := by decide

@[simp] theorem isSuccessIndicator_finalSummary :
    isSuccessIndicator (Event.msg finalSummaryMsg) = false := by decide

@[simp] theorem isSuccessIndicator_banner1 :
    isSuccessIndicator (Event.msg ("\n" ++ sep60)) = false := by decide

@[simp] theorem isSuccessIndicator_banner2 :
    isSuccessIndicator (Event.msg sep60) = false := by decide

@[simp] theorem isSuccessIndicator_building :
    isSuccessIndicator (Event.msg "Building Solution") = false := by decide

@[simp] theorem isSuccessIndicator_running :
    isSuccessIndicator (Event.msg "Running Tests") = false := by decide

/-- C1: when the directory change succeeds and both the build command and
the test command exit with status 0, the run terminates the process with
exit code 0, and filtering the printed output to the indicator/summary
lines yields exactly the two success indicators followed by the final
summary line, in that order, with no failure indicator anywhere in the
output. -/
theorem run_bothSucceed (w : World) (hcd : w.chdirOk = true)
    (hb : (w.exec build_cmd).returncode = 0)
    (ht : (w.exec test_cmd).returncode = 0) :
    (run w).outcome = Outcome.exited 0 ∧
    (run w).events.filter isMarker =
      [Event.msg buildSuccessMsg, Event.msg testsPassedMsg,
       Event.msg finalSummaryMsg] ∧
    (run w).events.filter isFailureIndicator = [] := by
  by_cases h1 : (w.exec build_cmd).stderr = "" <;>
  by_cases h2 : (w.exec test_cmd).stderr = "" <;>
    simp [run, run_command, hcd, hb, ht, h1, h2]

/-- C1 witness: a concrete world where both commands succeed. -/
theorem run_bothSucceed_witness :
    (run wAllOk).outcome = Outcome.exited 0 ∧
    (run wAllOk).events.filter isMarker =
      [Event.msg buildSuccessMsg, Event.msg testsPassedMsg,
       Event.msg finalSummaryMsg] ∧
    (run wAllOk).events.filter isFailureIndicator = [] :=
  run_bothSucceed wAllOk rfl rfl rfl

/-- C2: when the directory change succeeds and the build command exits
non-zero, the run terminates the process with exit code 1, prints the
build failure indicator, and never spawns the test command: the only
spawned subprocess is the build command, so the test command is spawned
zero times. -/
theorem run_buildFails (w : World) (hcd : w.chdirOk = true)
    (hb : (w.exec build_cmd).returncode ≠ 0) :
    (run w).outcome = Outcome.exited 1 ∧
    Event.msg buildFailedMsg ∈ (run w).events ∧
    (run w).spawned = [build_cmd] ∧
    (run w).spawned.count test_cmd = 0 := by
  have hb' : ((w.exec build_cmd).returncode == 0) = false :=
    beq_eq_false_iff_ne.mpr hb
  by_cases h1 : (w.exec build_cmd).stderr = "" <;>
    simp [run, run_command, hcd, hb', h1, List.count_cons, List.count_nil] <;>
    decide

/-- C2 witness: a concrete world where the build command fails. -/
theorem run_buildFails_witness :
    (run wBuildFails).outcome = Outcome.exited 1 ∧
    Event.msg buildFailedMsg ∈ (run wBuildFails).events ∧
    (run wBuildFails).spawned = [build_cmd] ∧
    (run wBuildFails).spawned.count test_cmd = 0 :=
  run_buildFails wBuildFails rfl (by decide)

/-- C3: when the directory change succeeds, the build command exits 0 and
the test command exits non-zero, the run terminates the process with exit
code 1, prints exactly one success indicator (the build one) and exactly
one failure indicator (the test one), and spawns the test command exactly
once. -/
theorem run_testFails (w : World) (hcd : w.chdirOk = true)
    (hb : (w.exec build_cmd).returncode = 0)
    (ht : (w.exec test_cmd).returncode ≠ 0) :
    (run w).outcome = Outcome.exited 1 ∧
    (run w).events.filter isSuccessIndicator = [Event.msg buildSuccessMsg] ∧
    (run w).events.filter isFailureIndicator = [Event.msg testsFailedMsg] ∧
    (run w).spawned.count test_cmd = 1 := by
  have ht' : ((w.exec test_cmd).returncode == 0) = false :=
    beq_eq_false_iff_ne.mpr ht
  by_cases h1 : (w.exec build_cmd).stderr = "" <;>
  by_cases h2 : (w.exec test_cmd).stderr = "" <;>
    simp [run, run_command, hcd, hb, ht', h1, h2, List.count_cons,
      List.count_nil] <;>
    decide

/-- C3 witness: a concrete world where the build succeeds and the test
command fails. -/
theorem run_testFails_witness :
    (run wTestFails).outcome = Outcome.exited 1 ∧
    (run wTestFails).events.filter isSuccessIndicator =
      [Event.msg buildSuccessMsg] ∧
    (run wTestFails).events.filter isFailureIndicator =
      [Event.msg testsFailedMsg] ∧
    (run wTestFails).spawned.count test_cmd = 1 :=
  run_testFails wTestFails rfl (by decide) (by decide)

/-- C4: when the working-directory change fails, the run aborts with the
uncaught `EnvironmentError` from `os.chdir`: nothing is printed and no
subprocess (neither build nor test) is ever spawned. -/
theorem run_chdirFails (w : World) (hcd : w.chdirOk = false) :
    (run w).outcome = Outcome.envError ∧
    (run w).events = [] ∧
    (run w).spawned = [] := by
  simp [run, hcd]

/-- C4 witness: a concrete world where the directory change fails. -/
theorem run_chdirFails_witness :
    (run wBadDir).outcome = Outcome.envError ∧
    (run wBadDir).events = [] ∧
    (run wBadDir).spawned = [] :=
  run_chdirFails wBadDir rfl

/-- C5: for every child invocation, the events directed to the error
stream are exactly one line carrying the child's captured stderr when that
stderr is non-empty, and nothing at all when it is empty; the captured
stdout is printed unconditionally. -/
theorem run_command_stderr (exec : String → CommandResult)
    (cmd description : String) :
    ((run_command exec cmd description).events.filter isErrStream =
      if (exec cmd).stderr ≠ "" then [Event.childErr (exec cmd).stderr]
      else []) ∧
    Event.childOut (exec cmd).stdout ∈ (run_command exec cmd description).events := by
  by_cases h : (exec cmd).stderr = "" <;>
    simp [run_command, h]

/-- C6: when the build succeeds, the spawned test command is the one
carrying the no-build flag as a suffix (the flag instructing the test
tool to skip its own build step), while the build command contains no
occurrence of that flag. -/
theorem run_testHasNoBuildFlag (w : World) (hcd : w.chdirOk = true)
    (hb : (w.exec build_cmd).returncode = 0) :
    test_cmd ∈ (run w).spawned ∧
    noBuildFlag.data <:+ test_cmd.data ∧
    ¬ noBuildFlag.data <:+: build_cmd.data := by
  refine ⟨?_, by decide, by decide⟩
  cases ht : ((w.exec test_cmd).returncode == 0) <;>
    simp [run, run_command, hcd, hb, ht]

/-- C6 witness: a concrete world where the build succeeds. -/
theorem run_testHasNoBuildFlag_witness :
    test_cmd ∈ (run wAllOk).spawned ∧
    noBuildFlag.data <:+ test_cmd.data ∧
    ¬ noBuildFlag.data <:+: build_cmd.data :=
  run_testHasNoBuildFlag wAllOk rfl rfl

/-- C7: every child invocation first prints the banner — a separator line,
the description line, another separator line — and only then the events
carrying the fully captured output of the terminated child: the complete
stdout as one event, followed possibly by one event with the complete
stderr. -/
theorem run_command_bannerFirst (exec : String → CommandResult)
    (cmd description : String) :
    ∃ tail,
      (run_command exec cmd description).events =
        [Event.msg ("\n" ++ sep60), Event.msg description,
         Event.msg sep60] ++ Event.childOut (exec cmd).stdout :: tail ∧
      (tail = [] ∨ tail = [Event.childErr (exec cmd).stderr]) := by
  by_cases h : (exec cmd).stderr = ""
  · exact ⟨[], by simp [run_command, h], Or.inl rfl⟩
  · exact ⟨[Event.childErr (exec cmd).stderr], by simp [run_command, h],
      Or.inr rfl⟩

/-- C8: the run is deterministic in the results of the two child
invocations: two runs whose environments agree on the directory change and
on the results of the build and test commands produce the same exit
outcome. -/
theorem run_deterministic (w1 w2 : World)
    (hc : w1.chdirOk = w2.chdirOk)
    (hb : w1.exec build_cmd = w2.exec build_cmd)
    (ht : w1.exec test_cmd = w2.exec test_cmd) :
    (run w1).outcome = (run w2).outcome := by
  cases hcd : w2.chdirOk <;>
    simp [run, run_command, hc, hb, ht, hcd]

/-- C8 witness: two concrete worlds agreeing on the two commands. -/
theorem run_deterministic_witness :
    (run wAllOk).outcome = (run wAllOkElsewhere).outcome :=
  run_deterministic wAllOk wAllOkElsewhere rfl (by decide) (by decide)

/-- C9: once the directory change has succeeded, the runner's exit code is
always 0 or 1, never any other value. -/
theorem run_exitCodeIsZeroOrOne (w : World) (hcd : w.chdirOk = true) :
    (run w).outcome = Outcome.exited 0 ∨
    (run w).outcome = Outcome.exited 1 := by
  cases hb : ((w.exec build_cmd).returncode == 0) <;>
  cases ht : ((w.exec test_cmd).returncode == 0) <;>
    simp [run, run_command, hcd, hb, ht]

/-- C9 witness: a concrete world with a successful directory change. -/
theorem run_exitCodeIsZeroOrOne_witness :
    (run wAllOk).outcome = Outcome.exited 0 ∨
    (run wAllOk).outcome = Outcome.exited 1 :=
  run_exitCodeIsZeroOrOne wAllOk rfl

/-- C10: the exit outcome depends only on the exit statuses of the two
child invocations, not on their captured output text: two runs whose
build and test commands return the same return codes, with arbitrarily
different stdout/stderr text, exit identically. -/
theorem run_outputIndependentExit (w1 w2 : World)
    (h1 : w1.chdirOk = true) (h2 : w2.chdirOk = true)
    (hb : (w1.exec build_cmd).returncode = (w2.exec build_cmd).returncode)
    (ht : (w1.exec test_cmd).returncode = (w2.exec test_cmd).returncode) :
    (run w1).outcome = (run w2).outcome := by
  cases hbb : ((w2.exec build_cmd).returncode == 0) <;>
  cases htt : ((w2.exec test_cmd).returncode == 0) <;>
    simp [run, run_command, h1, h2, hb, ht, hbb, htt]

/-- C10 witness: two concrete worlds with equal return codes and
different output text. -/
theorem run_outputIndependentExit_witness :
    (run wAllOk).outcome = (run wAllOkNoisy).outcome :=
  run_outputIndependentExit wAllOk wAllOkNoisy rfl rfl (by decide) (by decide)
